import Mathlib

/-!
Shallow embedding of the esp-udp-server core (device registry, audio router,
UDP server counters, dashboard audio bridge, packet pacer) together with
proofs settling the frozen specification claims.

Conventions of the embedding:
* JavaScript `Map` objects (insertion-ordered, unique keys) are modelled as
  association lists `List (String × β)`; `mapGet`/`mapSet` mirror `get`/`set`
  (a `set` on a present key overwrites in place, otherwise appends).
* JavaScript `Set` objects are modelled as insertion-ordered duplicate-free
  lists; `jsSetAdd` mirrors `Set.add`, `jsSetOfList` mirrors `new Set(arr)`.
* Machine timestamps (`Date.now()`) are passed explicitly as `now : Nat`.
* Byte buffers are `List Nat` with entries < 256; `readUInt16BE` becomes
  explicit arithmetic on two bytes.
* Sequence arithmetic uses `% 65536` exactly where the source masks with
  `& 0xFFFF` (all masked quantities are non-negative at the mask site).
-/

namespace EspUdp

/-- Model of `Map.get` on an insertion-ordered association list. -/
def mapGet {β : Type} (m : List (String × β)) (k : String) : Option β :=
  match m with
  | [] => none
  | (k', v) :: rest => if k' = k then some v else mapGet rest k

/-- Model of `Map.set`: overwrite in place if the key is present, else append. -/
def mapSet {β : Type} (m : List (String × β)) (k : String) (v : β) :
    List (String × β) :=
  match m with
  | [] => [(k, v)]
  | (k', v') :: rest =>
      if k' = k then (k', v) :: rest else (k', v') :: mapSet rest k v

/-- Keys of an association list (in insertion order). -/
def mapKeys {β : Type} (m : List (String × β)) : List String :=
  m.map Prod.fst

/-- JavaScript `Set.add`: append the element unless already present. -/
def jsSetAdd (l : List String) (x : String) : List String :=
  if x ∈ l then l else l ++ [x]

/-- Model of `new Set(arr)` — duplicate-free list keeping first occurrences. -/
def jsSetOfList (l : List String) : List String :=
  l.foldl jsSetAdd []

/-! ## Device registry (`DeviceManager`, src/unnamed/part_001) -/

/-- One registry entry, mirroring the object literal built in
`DeviceManager.updateDevice`.  `lastSequence` starts at `-1`, hence `Int`.
The two stats fields formatted through floating-point `toFixed` by
`getDeviceStats` (`packetLossRate`, `avgJitter`) are derived quantities kept
out of the stored record, exactly as in the source. -/
structure Device where
  id : String
  address : String
  port : Nat
  firstSeen : Nat
  lastSeen : Nat
  online : Bool
  sequence : Nat
  lastSequence : Int
  packetsReceived : Nat
  packetsLost : Nat
  jitter : List Nat
  lastPacketTime : Option Nat
  lastHeartbeat : Option Nat
  deriving Repr, DecidableEq

/-- The `info` argument of `updateDevice` as supplied by `handlePacket`. -/
structure DeviceInfo where
  address : String
  port : Nat
  sequence : Nat
  deriving Repr, DecidableEq

/-- Model of `DeviceManager.devices : Map<deviceId, device>`. -/
abbrev Registry := List (String × Device)

/-- Model of `DeviceManager.updateDevice(deviceId, info)` at wall-clock `now` with the
configured `frameDuration` (jitter nominal).  Returns the updated map together
with the (new or mutated) device, exactly as the source returns `device`. -/
def updateDevice (frameDuration : Nat) (now : Nat) (devices : Registry)
    (deviceId : String) (info : DeviceInfo) : Registry × Device :=
  match mapGet devices deviceId with
  | none =>
      -- new device registration
      let device : Device :=
        { id := deviceId, address := info.address, port := info.port,
          firstSeen := now, lastSeen := now, online := true,
          sequence := info.sequence, lastSequence := -1,
          packetsReceived := 0, packetsLost := 0,
          jitter := [], lastPacketTime := none, lastHeartbeat := none }
      (mapSet devices deviceId device, device)
  | some device =>
      -- packet-loss accounting on an existing device
      let lostAdd : Nat :=
        if 0 ≤ device.lastSequence then
          let expectedSeq : Nat := (device.lastSequence + 1).toNat % 65536
          if info.sequence ≠ expectedSeq then
            let lost : Nat := (info.sequence + 65536 - expectedSeq) % 65536
            if lost < 1000 then lost else 0
          else 0
        else 0
      -- jitter ring (push |now − lastPacketTime − frameDuration|, keep 100)
      let jitter' : List Nat :=
        match device.lastPacketTime with
        | some t =>
            let j := ((now : Int) - t - frameDuration).natAbs
            let pushed := device.jitter ++ [j]
            if pushed.length > 100 then pushed.tail else pushed
        | none => device.jitter
      let device' : Device :=
        { device with
          address := info.address, port := info.port, lastSeen := now,
          online := true, lastSequence := (info.sequence : Int),
          packetsReceived := device.packetsReceived + 1,
          packetsLost := device.packetsLost + lostAdd,
          jitter := jitter', lastPacketTime := some now }
      (mapSet devices deviceId device', device')

/-- Model of `DeviceManager.getOnlineDevices()`. -/
def getOnlineDevices (devices : Registry) : List Device :=
  (devices.map Prod.snd).filter (fun d => d.online)

/-- The numeric part of the `DeviceManager.getDeviceStats` snapshot. -/
structure DeviceStatsView where
  id : String
  address : String
  port : Nat
  online : Bool
  uptime : Nat
  packetsReceived : Nat
  packetsLost : Nat
  lastSeen : Nat
  deriving Repr, DecidableEq

/-- Model of `DeviceManager.getDeviceStats(deviceId)` at wall-clock `now`
(`uptime = Math.floor((now − firstSeen)/1000)`). -/
def getDeviceStats (now : Nat) (devices : Registry) (deviceId : String) :
    Option DeviceStatsView :=
  match mapGet devices deviceId with
  | none => none
  | some device =>
      some { id := device.id, address := device.address, port := device.port,
             online := device.online,
             uptime := (now - device.firstSeen) / 1000,
             packetsReceived := device.packetsReceived,
             packetsLost := device.packetsLost,
             lastSeen := device.lastSeen }

/-! ## Routing engine (`AudioRouter`, src/server/audio-router.js) and the
group index it reads from the registry (src/unnamed/part_001). -/

/-- Combined mutable state of `DeviceManager` (devices + groups) and
`AudioRouter` (routes, broadcast flags, muted set, mode), which the router
reads through its `deviceManager` back-reference. -/
structure RouterState where
  devices : Registry
  deviceGroups : List (String × List String)
  routes : List (String × List String)
  broadcastMode : List (String × Bool)
  mutedDevices : List String
  routingMode : String
  deriving Repr, DecidableEq

/-- Model of `DeviceManager.getGroupMembers(groupId)`. -/
def getGroupMembers (st : RouterState) (groupId : String) : List String :=
  (mapGet st.deviceGroups groupId).getD []

/-- Model of `DeviceManager.getDeviceGroups(deviceId)` — ids of groups containing the
device, in group-map insertion order. -/
def getDeviceGroups (st : RouterState) (deviceId : String) : List String :=
  st.deviceGroups.foldl
    (fun acc gm => if deviceId ∈ gm.2 then acc ++ [gm.1] else acc) []

/-- Model of `AudioRouter.getRoutes(sourceId)` — the hot path, all three branches. -/
def getRoutes (st : RouterState) (sourceId : String) : List String :=
  if sourceId ∈ st.mutedDevices then
    [] -- device is muted
  else if (mapGet st.broadcastMode sourceId).getD false then
    -- broadcast: all online devices except self and muted
    ((getOnlineDevices st.devices).filter
      (fun d => d.id ≠ sourceId ∧ d.id ∉ st.mutedDevices)).map Device.id
  else
    let groups := getDeviceGroups st sourceId
    if groups ≠ [] then
      -- group routing: co-members (≠ self, not muted) …
      let groupTargets : List String :=
        groups.foldl
          (fun acc groupId =>
            (getGroupMembers st groupId).foldl
              (fun acc memberId =>
                if memberId ≠ sourceId ∧ memberId ∉ st.mutedDevices then
                  jsSetAdd acc memberId
                else acc) acc) []
      -- … combined with direct routes (NOTE: no muted filter applied here)
      let directRoutes := (mapGet st.routes sourceId).getD []
      jsSetOfList (groupTargets ++ directRoutes)
    else
      -- direct routes only, minus muted
      match mapGet st.routes sourceId with
      | some routes => routes.filter (fun id => id ∉ st.mutedDevices)
      | none => []

/-- Model of `AudioRouter.setRoute(sourceId, targetId)`. -/
def setRoute (st : RouterState) (sourceId targetId : String) : RouterState :=
  let cur := (mapGet st.routes sourceId).getD []
  { st with routes := mapSet st.routes sourceId (jsSetAdd cur targetId) }

/-- Model of `AudioRouter.setMultipleRoutes(sourceId, targetIds)`. -/
def setMultipleRoutes (st : RouterState) (sourceId : String)
    (targetIds : List String) : RouterState :=
  { st with routes := mapSet st.routes sourceId (jsSetOfList targetIds) }

/-- Model of `AudioRouter.removeRoute(sourceId, targetId)`. -/
def removeRoute (st : RouterState) (sourceId targetId : String) : RouterState :=
  match mapGet st.routes sourceId with
  | none => st
  | some routes =>
      let routes' := routes.filter (fun id => id ≠ targetId)
      if routes' = [] then
        { st with routes := st.routes.filter (fun e => e.1 ≠ sourceId) }
      else
        { st with routes := mapSet st.routes sourceId routes' }

/-- Model of `AudioRouter.enableBroadcast(deviceId)`. -/
def enableBroadcast (st : RouterState) (deviceId : String) : RouterState :=
  { st with broadcastMode := mapSet st.broadcastMode deviceId true }

/-- Model of `AudioRouter.muteDevice(deviceId)`. -/
def muteDevice (st : RouterState) (deviceId : String) : RouterState :=
  { st with mutedDevices := jsSetAdd st.mutedDevices deviceId }

/-- The object returned by `AudioRouter.exportConfiguration()`. -/
structure RouterConfig where
  routes : List (String × List String)
  broadcast : List (String × Bool)
  muted : List String
  mode : String
  deriving Repr, DecidableEq

/-- Model of `AudioRouter.exportConfiguration()` — `Array.from` over the three
collections (an association-list entry `(source, targets)` is exactly the
exported `{source, targets: Array.from(targets)}` object). -/
def exportConfiguration (st : RouterState) : RouterConfig :=
  { routes := st.routes,
    broadcast := st.broadcastMode,
    muted := st.mutedDevices,
    mode := st.routingMode }

/-- Model of `AudioRouter.importConfiguration(config)` — clear the three collections,
then re-apply routes via `setMultipleRoutes`, broadcast entries via
`Map.set`, muted ids via `Set.add`; `mode` only when truthy (non-empty). -/
def importConfiguration (st : RouterState) (config : RouterConfig) :
    RouterState :=
  let st := { st with routes := [], broadcastMode := [], mutedDevices := [] }
  let st := config.routes.foldl
    (fun st route => setMultipleRoutes st route.1 route.2) st
  let st := { st with
    broadcastMode := config.broadcast.foldl
      (fun (m : List (String × Bool)) (e : String × Bool) => mapSet m e.1 e.2)
      st.broadcastMode }
  let st := { st with
    mutedDevices := config.muted.foldl jsSetAdd st.mutedDevices }
  if config.mode ≠ "" then { st with routingMode := config.mode } else st

/-! ## Datagram server (`UDPAudioServer`, src/server/udp-server.js) -/

/-- Model of `this.stats` of `UDPAudioServer`. -/
structure ServerStats where
  packetsReceived : Nat
  packetsRouted : Nat
  packetsDropped : Nat
  bytesReceived : Nat
  bytesTransmitted : Nat
  deriving Repr, DecidableEq

/-- Model of `UDPAudioServer.sendToDevice(device, packet)`: the socket-send callback
increments `packetsDropped` on an I/O error and otherwise adds the packet
length to `bytesTransmitted`.  The outcome of the asynchronous send is a
parameter `ok`. -/
def sendToDevice (ok : Bool) (stats : ServerStats) (packetLen : Nat) :
    ServerStats :=
  if ok then
    { stats with bytesTransmitted := stats.bytesTransmitted + packetLen }
  else
    { stats with packetsDropped := stats.packetsDropped + 1 }

/-- The `routes.forEach` callback body of `routeAudio`: look the target up,
and when it exists and is online, send and count the packet as routed. -/
def routeAudioStep (ok : String → Bool) (router : RouterState)
    (packet : List Nat) (s : ServerStats) (targetDeviceId : String) :
    ServerStats :=
  match mapGet router.devices targetDeviceId with
  | some targetDevice =>
      if targetDevice.online then
        let s := sendToDevice (ok targetDeviceId) s packet.length
        { s with packetsRouted := s.packetsRouted + 1 }
      else s
  | none => s

/-- Model of `UDPAudioServer.routeAudio(sourceDevice, packet)`.  `ok t` is the
datagram-level send outcome toward target id `t`. -/
def routeAudio (ok : String → Bool) (router : RouterState)
    (stats : ServerStats) (sourceId : String) (packet : List Nat) :
    ServerStats :=
  let routes := getRoutes router sourceId
  routes.foldl (routeAudioStep ok router packet) stats

/-- A parsed control-packet payload (`JSON.parse` result): the `command`
string and the optional `target` field the `route` command reads. -/
structure ControlMsg where
  command : String
  target : String
  deriving Repr, DecidableEq

/-- Model of `UDPAudioServer.handleControl(device, data)`; `parseCtl` stands for
`JSON.parse` on the payload bytes (`none` = parse error, caught and
ignored).  Only the router state is touched. -/
def handleControl (parseCtl : List Nat → Option ControlMsg)
    (router : RouterState) (deviceId : String) (data : List Nat) :
    RouterState :=
  match parseCtl data with
  | none => router
  | some control =>
      if control.command = "route" then setRoute router deviceId control.target
      else if control.command = "broadcast" then enableBroadcast router deviceId
      else if control.command = "mute" then muteDevice router deviceId
      else router

/-- Model of `readUInt16BE` on a byte list. -/
def readUInt16BE (packet : List Nat) (offset : Nat) : Nat :=
  (packet.getD offset 0) * 256 + packet.getD (offset + 1) 0

/-- Model of `packet.slice(0, 4).toString().replace(/\0/g, '')` for ASCII ids:
drop every NUL byte of the first four, decode the rest. -/
def parseDeviceId (packet : List Nat) : String :=
  String.mk (((packet.take 4).filter (fun b => b ≠ 0)).map Char.ofNat)

/-- The heartbeat acknowledgement `[id="SRVR"][seq=0][type=0x0003]`. -/
def heartbeatAck : List Nat := [83, 82, 86, 82, 0, 0, 0, 3]

/-- Full server state touched by `handlePacket`. -/
structure ServerState where
  router : RouterState
  stats : ServerStats
  deriving Repr, DecidableEq

/-- Model of `UDPAudioServer.handlePacket(packet, rinfo)`: count the datagram and its
bytes, drop short datagrams, otherwise parse the header, update the registry
and dispatch on the packet type. -/
def handlePacket (frameDuration now : Nat)
    (parseCtl : List Nat → Option ControlMsg) (ok : String → Bool)
    (st : ServerState) (packet : List Nat) (raddr : String) (rport : Nat) :
    ServerState :=
  -- update statistics (before any validation)
  let stats :=
    { st.stats with
      packetsReceived := st.stats.packetsReceived + 1,
      bytesReceived := st.stats.bytesReceived + packet.length }
  -- validate packet minimum size
  if packet.length < 8 then
    { st with stats := { stats with packetsDropped := stats.packetsDropped + 1 } }
  else
    -- parse packet header
    let deviceId := parseDeviceId packet
    let sequence := readUInt16BE packet 4
    let packetType := readUInt16BE packet 6
    let audioData := packet.drop 8
    -- register/update device
    let ud := updateDevice frameDuration now st.router.devices
      deviceId { address := raddr, port := rport, sequence := sequence }
    let devices' := ud.1
    let device := ud.2
    let router := { st.router with devices := devices' }
    -- handle different packet types
    if packetType = 1 then
      { router := router,
        stats := routeAudio ok router stats device.id packet }
    else if packetType = 2 then
      { router := handleControl parseCtl router device.id audioData,
        stats := stats }
    else if packetType = 3 then
      -- handleHeartbeat: stamp lastHeartbeat, reply with the SRVR ack
      let device' := { device with lastHeartbeat := some now }
      { router := { router with devices := mapSet devices' deviceId device' },
        stats := sendToDevice (ok device.id) stats heartbeatAck.length }
    else
      { router := router, stats := stats }

/-! ## Virtual-endpoint bridge (`DashboardAudioServer.handleOutgoingAudio`,
src/unnamed/part_002) and `PacketPacer.shouldUsePacer`
(src/server/packet-pacer.js). -/

/-- Model of `PacketPacer.shouldUsePacer(fromId, toId)`. -/
def shouldUsePacer (fromId toId : String) : Bool :=
  -- use pacer for dashboard to ESP32 audio
  if fromId = "DSH" ∧ toId ≠ "DSH" then true
  -- don't pace ESP32 to ESP32
  else false

/-- A bridge `audio_packet` message (`opus` already base64-decoded);
`toId` is the message's `to` field (`to` is a reserved word in Lean). -/
structure AudioPacketMsg where
  toId : String
  sequence : Nat
  opus : List Nat
  deriving Repr, DecidableEq

/-- The UDP packet `handleOutgoingAudio` builds:
`[DSH\0][seq:uint16 BE][0x0001][opus]` (sequence < 2^16, else
`writeUInt16BE` would throw). -/
def buildDashboardPacket (sequence : Nat) (opus : List Nat) : List Nat :=
  [68, 83, 72, 0] ++ [sequence / 256 % 256, sequence % 256] ++ [0, 1] ++ opus

/-- How an audio frame leaves the server toward a target. -/
inductive Egress where
  /-- an immediate `udpServer.sendToDevice` call -/
  | direct (target : Device) (packet : List Nat)
  /-- an enqueue into the paced egress queue (`pacer.bufferPacket`) -/
  | paced (fromId toId : String) (packet : List Nat)
  /-- nothing sent (target missing or offline) -/
  | notSent
  deriving Repr, DecidableEq

/-- Model of `DashboardAudioServer.handleOutgoingAudio(message)`: build the
datagram and send it to the target device — the source calls
`udpServer.sendToDevice` directly; no call into the pacer exists anywhere
in the repository (the `PacketPacer` class is never constructed or even
required).  The egress action taken is returned; the `audioStats` counters
the source bumps alongside a successful send are client-facing diagnostics
and not modelled. -/
def handleOutgoingAudio (devices : Registry) (message : AudioPacketMsg) :
    Egress :=
  let packet := buildDashboardPacket message.sequence message.opus
  match mapGet devices message.toId with
  | some targetDevice =>
      if targetDevice.online then Egress.direct targetDevice packet
      else Egress.notSent
  | none => Egress.notSent

/-! ## Paced egress queue (`PacketPacer`, src/server/packet-pacer.js,
enhanced version with timing diagnostics). -/

def PACKET_INTERVAL : Nat := 20
def MAX_BUFFER_SIZE : Nat := 10
def MAX_LATENCY : Nat := 100

/-- One buffered packet `{data, timestamp, sequence}`. -/
structure PacedPacket where
  data : List Nat
  timestamp : Nat
  sequence : Nat
  deriving Repr, DecidableEq

/-- Per-flow queue object (`lastBuilupWarning` is the lazily created —
and misspelled — JS property). -/
structure PacedQueue where
  packets : List PacedPacket
  toDevice : Device
  lastSendTime : Nat
  sequence : Nat
  lastBuilupWarning : Option Nat
  deriving Repr, DecidableEq

/-- A recorded timing violation. -/
structure Violation where
  timestamp : Nat
  vtype : String
  value : Int
  queueKey : Option String
  deriving Repr, DecidableEq

/-- Model of `PacketPacer.stats`. -/
structure PacerStats where
  packetsReceived : Nat
  packetsSent : Nat
  packetsDropped : Nat
  jitterEvents : Nat
  avgInterval : Nat
  minInterval : Nat
  maxInterval : Nat
  deriving Repr, DecidableEq

/-- Full pacer state. -/
structure Pacer where
  queues : List (String × PacedQueue)
  lastGlobalSendTime : Nat
  currentQueueIndex : Nat
  lastPacketSendTime : Nat
  lastIntervalFire : Nat
  timingHistory : List (Nat × Nat)
  timingViolations : List Violation
  stats : PacerStats
  deriving Repr, DecidableEq

/-- The freshly constructed pacer (`new PacketPacer(...)`). -/
def initPacer : Pacer :=
  { queues := [], lastGlobalSendTime := 0, currentQueueIndex := 0,
    lastPacketSendTime := 0, lastIntervalFire := 0,
    timingHistory := [], timingViolations := [],
    stats := { packetsReceived := 0, packetsSent := 0, packetsDropped := 0,
               jitterEvents := 0, avgInterval := 0, minInterval := 999,
               maxInterval := 0 } }

/-- Model of `PacketPacer.extractSequence(packet)`: `(packet[4] << 8) | packet[5]`,
0 when shorter than 6 bytes. -/
def extractSequence (packet : List Nat) : Nat :=
  if packet.length < 6 then 0
  else (packet.getD 4 0) * 256 + packet.getD 5 0

/-- Model of `PacketPacer.recordViolation(type, value, queueKey)` (the dashboard
callback is an external sink and not part of the state). -/
def recordViolation (now : Nat) (vtype : String) (value : Int)
    (queueKey : Option String) (st : Pacer) : Pacer :=
  let pushed := st.timingViolations ++
    [{ timestamp := now, vtype := vtype, value := value, queueKey := queueKey }]
  { st with timingViolations :=
      if pushed.length > 100 then pushed.tail else pushed }

/-- Stable insertion of a packet after all packets of smaller-or-equal
sequence (JS `Array.prototype.sort` with `(a, b) => a.sequence - b.sequence`
is stable). -/
def insertBySeq (x : PacedPacket) : List PacedPacket → List PacedPacket
  | [] => [x]
  | y :: ys =>
      if y.sequence ≤ x.sequence then y :: insertBySeq x ys else x :: y :: ys

/-- Stable sort by sequence number. -/
def sortBySeq (l : List PacedPacket) : List PacedPacket :=
  l.foldl (fun acc x => insertBySeq x acc) []

/-- The `while (queue.packets.length > MAX_BUFFER_SIZE)` drop loop, with
explicit structural fuel (`fuel = packets.length` always suffices). -/
def dropWhileFull : Nat → List PacedPacket → Nat → List PacedPacket × Nat
  | 0, ps, dropped => (ps, dropped)
  | fuel + 1, ps, dropped =>
      if ps.length > MAX_BUFFER_SIZE then dropWhileFull fuel ps.tail (dropped + 1)
      else (ps, dropped)

/-- Model of `PacketPacer.bufferPacket(packet, fromDevice, toDevice)` at time `now`
(the source begins with `if (!fromDevice || !toDevice) return`). -/
def bufferPacket (st : Pacer) (packet : List Nat)
    (fromDevice toDevice : Option Device) (now : Nat) : Pacer :=
  match fromDevice, toDevice with
  | some fromDevice, some toDevice =>
      let queueKey := fromDevice.id ++ "->" ++ toDevice.id
      -- get or create queue for this device pair
      let queue := (mapGet st.queues queueKey).getD
        { packets := [], toDevice := toDevice, lastSendTime := 0,
          sequence := 0, lastBuilupWarning := none }
      -- add packet to queue with timestamp
      let pushed := queue.packets ++
        [{ data := packet, timestamp := now, sequence := extractSequence packet }]
      let stats := { st.stats with packetsReceived := st.stats.packetsReceived + 1 }
      -- drop old packets if buffer is full
      let dropRes := dropWhileFull pushed.length pushed 0
      -- sort by sequence number to handle reordering
      let sorted := sortBySeq dropRes.1
      { st with
        queues := mapSet st.queues queueKey { queue with packets := sorted },
        stats := { stats with packetsDropped := stats.packetsDropped + dropRes.2 } }
  | _, _ => st

/-- The catch-up test of `sendScheduledPackets`: some flow's head is older
than 60 ms. -/
def needsCatchup (queues : List (String × PacedQueue)) (now : Nat) : Bool :=
  queues.any (fun kq =>
    match kq.2.packets with
    | [] => false
    | p :: _ => now - p.timestamp > 60)

/-- Model of `PacketPacer.updateTimingStats(interval)`; `Math.round(sum / len)` is
`(2 * sum + len) / (2 * len)` on naturals. -/
def updateTimingStats (now interval : Nat) (st : Pacer) : Pacer :=
  let pushed := st.timingHistory ++ [(now, interval)]
  let history := if pushed.length > 100 then pushed.tail else pushed
  let stats := st.stats
  let stats := if interval < stats.minInterval then { stats with minInterval := interval } else stats
  let stats := if interval > stats.maxInterval then { stats with maxInterval := interval } else stats
  let recent := history.drop (history.length - 20)
  let sum := recent.foldl (fun acc h => acc + h.2) 0
  let stats := { stats with avgInterval := (2 * sum + recent.length) / (2 * recent.length) }
  { st with timingHistory := history, stats := stats }

/-- A packet the pacer handed to the datagram server this tick. -/
structure SentPacket where
  queueKey : String
  data : List Nat
  toDevice : Device
  deriving Repr, DecidableEq

/-- The round-robin `for` loop of `sendScheduledPackets`: try each queue
starting at `currentQueueIndex`; on the first sendable head, pop it, stamp
the timing trackers and return it (at most one packet).  `fuel` counts the
remaining iterations (initially `queueKeys.length`), `i` the loop variable. -/
def paceLoop (now : Nat) (queueKeys : List String) :
    Nat → Nat → Pacer → Pacer × List SentPacket
  | 0, _, st =>
      -- no packets were sent: advance queue index anyway
      ({ st with currentQueueIndex :=
          (st.currentQueueIndex + 1) % max queueKeys.length 1 }, [])
  | fuel + 1, i, st =>
      let index := (st.currentQueueIndex + i) % queueKeys.length
      let queueKey := queueKeys.getD index ""
      match mapGet st.queues queueKey with
      | none => paceLoop now queueKeys fuel (i + 1) st
      | some queue =>
        match queue.packets with
        | [] => paceLoop now queueKeys fuel (i + 1) st
        | packet :: rest =>
          let age := now - packet.timestamp
          -- queue-depth diagnostic (rate-limited per queue)
          let warnDue := match queue.lastBuilupWarning with
            | none => true
            | some w => now - w > 1000
          let stq :=
            if queue.packets.length > 5 ∧ warnDue = true then
              let st := recordViolation now "queue_buildup"
                (queue.packets.length : Int) (some queueKey) st
              let queue := { queue with lastBuilupWarning := some now }
              ({ st with queues := mapSet st.queues queueKey queue }, queue)
            else (st, queue)
          let st := stq.1
          let queue := stq.2
          -- initial buffering only for the very first packets
          if st.stats.packetsSent = 0 ∧ queue.packets.length < 2 ∧ age < 20 then
            paceLoop now queueKeys fuel (i + 1) st
          else
            -- high-latency diagnostic
            let st : Pacer :=
              if age > MAX_LATENCY then
                let st : Pacer := { st with stats :=
                  { st.stats with jitterEvents := st.stats.jitterEvents + 1 } }
                if st.stats.jitterEvents % 10 = 1 then
                  recordViolation now "high_latency" (age : Int) (some queueKey) st
                else st
              else st
            -- remove and send this ONE packet
            let queue' := { queue with packets := rest, lastSendTime := now }
            let st : Pacer := { st with
              queues := mapSet st.queues queueKey queue',
              lastGlobalSendTime := now,
              stats := { st.stats with packetsSent := st.stats.packetsSent + 1 } }
            -- timing diagnostics
            let st : Pacer :=
              if st.lastPacketSendTime ≠ 0 then
                let interval := now - st.lastPacketSendTime
                let st : Pacer := updateTimingStats now interval st
                if interval < 15 ∨ interval > 25 then
                  recordViolation now "packet_interval" (interval : Int)
                    (some queueKey) st
                else st
              else st
            let st : Pacer := { st with
              lastPacketSendTime := now,
              currentQueueIndex := (index + 1) % queueKeys.length }
            (st, [{ queueKey := queueKey, data := packet.data,
                    toDevice := queue.toDevice }])

/-- The `setInterval` health check opening `sendScheduledPackets`: while
actively sending, record an `interval_drift` violation when the fire-to-fire
gap strays more than 10 ms from `PACKET_INTERVAL`. -/
def intervalDriftCheck (st : Pacer) (now : Nat) : Pacer :=
  if st.lastIntervalFire > 0 ∧ st.stats.packetsSent > 0 then
    let timeSinceLastCheck := now - st.lastIntervalFire
    if timeSinceLastCheck < 100 then
      let intervalDrift : Int := (timeSinceLastCheck : Int) - PACKET_INTERVAL
      if intervalDrift.natAbs > 10 then
        recordViolation now "interval_drift" intervalDrift none st
      else st
    else st
  else st

/-- Model of `PacketPacer.sendScheduledPackets()` at time `now`, returning
the new state and the packets handed to the datagram server (the source
sends at most one and then returns). -/
def sendScheduledPackets (st : Pacer) (now : Nat) : Pacer × List SentPacket :=
  -- setInterval drift check, only while actively sending
  let st := intervalDriftCheck st now
  let st := { st with lastIntervalFire := now }
  -- check if we need to catch up (packets getting old)
  let catchup := needsCatchup st.queues now
  -- enforce global timing — but allow catch-up when behind
  if ¬catchup ∧ st.lastGlobalSendTime ≠ 0 ∧
      now - st.lastGlobalSendTime < PACKET_INTERVAL - 2 then
    (st, [])
  else
    let queueKeys := mapKeys st.queues
    if queueKeys = [] then (st, [])
    else paceLoop now queueKeys queueKeys.length 0 st

/-! ## Observers used by the claim statements -/

/-- Whether an egress action is an enqueue into the paced queue. -/
def isPaced : Egress → Bool
  | Egress.paced _ _ _ => true
  | _ => false

/-- The per-target guard of `routeAudio`: the target exists in the registry
and is online. -/
def isOnlineTarget (devices : Registry) (targetId : String) : Bool :=
  match mapGet devices targetId with
  | some d => d.online
  | none => false

/-- Length of a pacer flow's queue (0 when the flow does not exist). -/
def queueLenAt (p : Pacer) (queueKey : String) : Nat :=
  ((mapGet p.queues queueKey).map (fun q => q.packets.length)).getD 0

/-! ## Fixtures for concrete scenarios -/

/-- A minimal online endpoint as first registered from `10.0.0.1:5005`. -/
def mkDevice (i : String) : Device :=
  { id := i, address := "10.0.0.1", port := 5005, firstSeen := 0, lastSeen := 0,
    online := true, sequence := 0, lastSequence := -1, packetsReceived := 0,
    packetsLost := 0, jitter := [], lastPacketTime := none,
    lastHeartbeat := none }

/-! ## Claim C1 -/

def c1Registry : Registry := [("001", mkDevice "001")]

def c1Msg : AudioPacketMsg := { toId := "001", sequence := 1, opus := [7, 7] }

/-- C1: the claim says egress for frames from the virtual endpoint "DSH" to
a physical endpoint goes through the paced egress queue.  `shouldUsePacer`
is indeed true exactly on `src = "DSH" ∧ tgt ≠ "DSH"`, but the send path
(`handleOutgoingAudio`) never enqueues into the pacer: every bridge frame —
including the failing input `c1Msg` toward the online physical endpoint
"001", for which `shouldUsePacer` is true — is sent directly and
synchronously via `udpServer.sendToDevice`. -/
theorem c1_pacer_never_used_on_send_path :
    (∀ (devices : Registry) (message : AudioPacketMsg),
      isPaced (handleOutgoingAudio devices message) = false) ∧
    (∀ s t : String, shouldUsePacer s t = true ↔ s = "DSH" ∧ t ≠ "DSH") ∧
    (shouldUsePacer "DSH" "001" = true ∧
      handleOutgoingAudio c1Registry c1Msg =
        Egress.direct (mkDevice "001") (buildDashboardPacket 1 [7, 7])) := by
  refine ⟨?_, ?_, by decide, by decide⟩
  · intro devices message
    unfold handleOutgoingAudio
    cases mapGet devices message.toId with
    | none => rfl
    | some td => cases h : td.online <;> simp [h, isPaced]
  · intro s t
    by_cases h : s = "DSH" ∧ t ≠ "DSH" <;> simp [shouldUsePacer, h]

/-! ## Claim C2 -/

def c2Info (s : Nat) : DeviceInfo :=
  { address := "10.0.0.1", port := 5005, sequence := s }

/-- The registry after a never-seen endpoint "001" sends four datagrams with
sequence numbers 0, 1, 2, 5 (20 ms apart, frame duration 20 ms). -/
def c2Registry : Registry :=
  (updateDevice 20 60
    (updateDevice 20 40
      (updateDevice 20 20
        (updateDevice 20 0 [] "001" (c2Info 0)).1
        "001" (c2Info 1)).1
      "001" (c2Info 2)).1
    "001" (c2Info 5)).1

/-- C2 counterexample: after sequence numbers 0, 1, 2, 5 from a fresh
endpoint the registry does NOT report `packetsReceived = 4`: the first
datagram only registers the endpoint (`packetsReceived` starts at 0 and is
not incremented in the registration branch). -/
theorem c2_counterexample :
    ¬ ((getDeviceStats 100 c2Registry "001").map
        (fun v => (v.packetsReceived, v.packetsLost)) = some (4, 2)) := by
  decide

/-- C2 amended: after sequence numbers 0, 1, 2, 5 from a fresh endpoint the
registry reports `packetsReceived = 3` (the registration datagram is not
counted) and `packetsLost = 2`. -/
theorem c2_stats_after_0_1_2_5 :
    (getDeviceStats 100 c2Registry "001").map
      (fun v => (v.packetsReceived, v.packetsLost)) = some (3, 2) := by
  decide

/-! ## Claim C3 -/

/-- A state where source "A" shares group "g" with "B", has an explicit
route to "M", and "M" is muted. -/
def c3State : RouterState :=
  { devices := [("A", mkDevice "A"), ("B", mkDevice "B"), ("M", mkDevice "M")],
    deviceGroups := [("g", ["A", "B"])],
    routes := [("A", ["M"])],
    broadcastMode := [],
    mutedDevices := ["M"],
    routingMode := "unicast" }

/-- C3 (code bug): a muted destination is NOT excluded from every branch of
`getRoutes`.  In the group branch the explicit `routes[src]` entries are
unioned in without the muted filter (the filter is applied to group
co-members and in the other two branches only), so the muted endpoint "M"
appears in `getRoutes(c3State, "A")`. -/
theorem c3_muted_destination_leaks :
    "M" ∈ c3State.mutedDevices ∧ "M" ≠ "A" ∧ "M" ∈ getRoutes c3State "A" := by
  decide

/-! ## Claim C4 -/

/-- Sending never changes `packetsRouted` (the callback touches only
`packetsDropped` and `bytesTransmitted`). -/
theorem sendToDevice_packetsRouted (ok : Bool) (s : ServerStats) (len : Nat) :
    (sendToDevice ok s len).packetsRouted = s.packetsRouted := by
  unfold sendToDevice
  split <;> rfl

/-- Folding the per-target step adds one to `packetsRouted` for every target
that exists and is online, independently of the send outcomes. -/
theorem routeAudio_foldl_packetsRouted (ok : String → Bool)
    (router : RouterState) (packet : List Nat) :
    ∀ (l : List String) (stats : ServerStats),
      (l.foldl (routeAudioStep ok router packet) stats).packetsRouted =
        stats.packetsRouted +
          (l.filter (isOnlineTarget router.devices)).length := by
  intro l
  induction l with
  | nil => intro stats; simp
  | cons hd tl ih =>
      intro stats
      simp only [List.foldl_cons, List.filter_cons]
      rw [ih]
      unfold routeAudioStep isOnlineTarget
      cases h : mapGet router.devices hd with
      | none => simp
      | some td =>
          cases ho : td.online with
          | false => simp [ho]
          | true => simp [ho, sendToDevice_packetsRouted]; omega

def c4State : RouterState :=
  { devices := [("001", mkDevice "001"), ("002", mkDevice "002")],
    deviceGroups := [],
    routes := [("001", ["002"])],
    broadcastMode := [],
    mutedDevices := [],
    routingMode := "unicast" }

def c4Stats : ServerStats :=
  { packetsReceived := 0, packetsRouted := 0, packetsDropped := 0,
    bytesReceived := 0, bytesTransmitted := 0 }

def c4Packet : List Nat := [48, 48, 49, 0, 0, 0, 0, 1]

/-- C4 counterexample: route "001" → "002" with "002" online, and the
datagram-level send failing.  The claim says a failed send must not
increment `packetsRouted` (it should stay 0), but the code increments it to
1 anyway — the increment happens right after initiating the asynchronous
send, before its outcome is known; the error callback only adds to
`packetsDropped`. -/
theorem c4_counterexample :
    (routeAudio (fun _ => false) c4State c4Stats "001" c4Packet).packetsRouted
        = 1 ∧
    (routeAudio (fun _ => false) c4State c4Stats "001" c4Packet).packetsDropped
        = 1 ∧
    ¬ ((routeAudio (fun _ => false) c4State c4Stats "001" c4Packet).packetsRouted
        = 0) := by
  decide

/-- C4 amended: for an audio datagram, `packetsRouted` increments exactly
once per routed target that exists and is online — i.e. once per attempted
egress — regardless of whether the datagram-level send succeeds (the
outcome oracle `ok` is universally quantified and absent from the
right-hand side); failed sends are counted separately in `packetsDropped`
by the send callback. -/
theorem c4_routed_counts_attempted_targets (ok : String → Bool)
    (router : RouterState) (stats : ServerStats) (sourceId : String)
    (packet : List Nat) :
    (routeAudio ok router stats sourceId packet).packetsRouted =
      stats.packetsRouted +
        ((getRoutes router sourceId).filter
          (isOnlineTarget router.devices)).length := by
  unfold routeAudio
  exact routeAudio_foldl_packetsRouted ok router packet _ stats

/-! ## Claim C5 -/

/-- The round-robin loop hands over at most one packet: every send is
immediately followed by the `return`. -/
theorem paceLoop_length_le_one (now : Nat) (queueKeys : List String) :
    ∀ (fuel i : Nat) (st : Pacer),
      (paceLoop now queueKeys fuel i st).2.length ≤ 1 := by
  intro fuel
  induction fuel with
  | zero => intro i st; simp [paceLoop]
  | succ n ih =>
      intro i st
      rw [paceLoop]
      dsimp only
      repeat' split
      all_goals first | exact ih _ _ | simp

/-- C5 counterexample: the pacer had last released a packet at t = 65 and
the tick at t = 70 falls 5 ms later — inside the 18 ms anti-burst window —
yet a packet is released, because the flow's head is 70 ms old and the
catch-up branch bypasses the guard.  Two packets are thus released within a
window shorter than `PACKET_INTERVAL − 2`. -/
def c5Flow : PacedQueue :=
  { packets := [{ data := [68, 83, 72, 0, 0, 1, 0, 1, 9], timestamp := 0,
                  sequence := 1 }],
    toDevice := mkDevice "001", lastSendTime := 0, sequence := 0,
    lastBuilupWarning := none }

def c5State : Pacer :=
  { initPacer with
    queues := [("DSH->001", c5Flow)],
    lastGlobalSendTime := 65,
    stats := { initPacer.stats with packetsSent := 5 } }

/-- C5 counterexample theorem (see `c5Flow`/`c5State`): a release happens
within a 5 ms window of the last global send. -/
theorem c5_counterexample :
    70 - c5State.lastGlobalSendTime < PACKET_INTERVAL - 2 ∧
    c5State.lastGlobalSendTime ≠ 0 ∧
    (sendScheduledPackets c5State 70).2.length = 1 := by
  decide

/-- C5 amended: the paced queue releases at most one packet per tick; and
provided no flow's head is older than 60 ms (no catch-up), no packet at all
is released within a window shorter than `PACKET_INTERval − 2 = 18` ms since
the last global send.  When a flow head is older than 60 ms the catch-up
branch deliberately bypasses the anti-burst guard. -/
theorem c5_one_per_tick_and_guard (st : Pacer) (now : Nat) :
    (sendScheduledPackets st now).2.length ≤ 1 ∧
    (needsCatchup st.queues now = false →
      st.lastGlobalSendTime ≠ 0 →
      now - st.lastGlobalSendTime < PACKET_INTERVAL - 2 →
      (sendScheduledPackets st now).2 = []) := by
  have hq : (intervalDriftCheck st now).queues = st.queues := by
    unfold intervalDriftCheck recordViolation
    dsimp only
    repeat' split
    all_goals rfl
  have hg : (intervalDriftCheck st now).lastGlobalSendTime =
      st.lastGlobalSendTime := by
    unfold intervalDriftCheck recordViolation
    dsimp only
    repeat' split
    all_goals rfl
  constructor
  · unfold sendScheduledPackets
    dsimp only
    split
    · simp
    · split
      · simp
      · exact paceLoop_length_le_one _ _ _ _ _
  · intro hcatch hlast hwin
    unfold sendScheduledPackets
    dsimp only
    rw [if_pos ⟨by simp [hq, hcatch], by simpa [hg] using hlast,
      by simpa [hg] using hwin⟩]

/-- A flow whose head is only 10 ms old at t = 70 (no catch-up). -/
def c5bFlow : PacedQueue :=
  { c5Flow with
    packets := [{ data := [68, 83, 72, 0, 0, 1, 0, 1, 9], timestamp := 60,
                  sequence := 1 }] }

def c5bState : Pacer := { c5State with queues := [("DSH->001", c5bFlow)] }

/-- C5 witness: at the concrete state `c5bState` (last send at t = 65, head
aged 10 ms) the tick at t = 70 releases nothing, and in general at most one
packet. -/
theorem c5_one_per_tick_and_guard_witness :
    (sendScheduledPackets c5bState 70).2 = [] ∧
    (sendScheduledPackets c5bState 70).2.length ≤ 1 :=
  ⟨(c5_one_per_tick_and_guard c5bState 70).2 (by decide) (by decide)
      (by decide),
   (c5_one_per_tick_and_guard c5bState 70).1⟩

/-! ## Claim C6 -/

/-- A state with one online endpoint "001" and broadcast enabled for the id
"X", which is not a registered (hence not an online) endpoint. -/
def c6State : RouterState :=
  { devices := [("001", mkDevice "001")],
    deviceGroups := [],
    routes := [],
    broadcastMode := [("X", true)],
    mutedDevices := [],
    routingMode := "unicast" }

/-- C6 counterexample: for a broadcast-enabled, unmuted source that is not
itself among the online endpoints, `getRoutes` returns all online endpoints
— its size is `|online|`, exceeding the claimed bound `|online| − 1`
(the `d.id !== sourceId` filter removes nothing). -/
theorem c6_counterexample :
    (mapGet c6State.broadcastMode "X").getD false = true ∧
    "X" ∉ c6State.mutedDevices ∧
    (getOnlineDevices c6State.devices).length - 1
      < (getRoutes c6State "X").length := by
  decide

/-- C6 amended: a muted source always has an empty route set; and for a
broadcast-enabled unmuted source that IS one of the online endpoints, the
route set has at most `|online endpoints| − 1` elements (the claimed bound
holds once the source itself is online; an offline or unregistered
broadcast source can reach all `|online|` endpoints, see the
counterexample). -/
theorem c6_muted_empty_and_broadcast_bound (st : RouterState) (s : String) :
    (s ∈ st.mutedDevices → getRoutes st s = []) ∧
    ((mapGet st.broadcastMode s).getD false = true →
      s ∉ st.mutedDevices →
      (∃ d ∈ getOnlineDevices st.devices, d.id = s) →
      (getRoutes st s).length ≤ (getOnlineDevices st.devices).length - 1) := by
  constructor
  · intro hm
    unfold getRoutes
    rw [if_pos hm]
  · intro hb hm ⟨d, hd, hds⟩
    unfold getRoutes
    rw [if_neg hm, if_pos hb, List.length_map]
    have hlt : ((getOnlineDevices st.devices).filter
        (fun x => decide (x.id ≠ s ∧ x.id ∉ st.mutedDevices))).length
        < (getOnlineDevices st.devices).length := by
      apply List.length_filter_lt_length_iff_exists.mpr
      exact ⟨d, hd, by simp [hds]⟩
    omega

/-- C6 witness: concrete instances for both hypotheses of the amended
theorem — a muted source gets no routes, and an online broadcast source
reaches at most `|online| − 1` targets. -/
def c6wState : RouterState :=
  { devices := [("001", mkDevice "001"), ("002", mkDevice "002")],
    deviceGroups := [],
    routes := [],
    broadcastMode := [("001", true)],
    mutedDevices := ["003"],
    routingMode := "unicast" }

theorem c6_muted_empty_and_broadcast_bound_witness :
    getRoutes c6wState "003" = [] ∧
    (getRoutes c6wState "001").length
      ≤ (getOnlineDevices c6wState.devices).length - 1 :=
  ⟨(c6_muted_empty_and_broadcast_bound c6wState "003").1 (by decide),
   (c6_muted_empty_and_broadcast_bound c6wState "001").2 (by decide)
     (by decide) ⟨mkDevice "001", by decide, rfl⟩⟩

/-! ## Claim C7 -/

/-- C7: on an update of an endpoint with `lastSequence ≥ 0` and incoming
16-bit `seq ≠ (lastSequence + 1) mod 2^16`, the registry adds
`lost = (seq − expected) mod 2^16` to `packetsLost` iff `lost < 1000`
(first conjunct, stated with the spec's signed-mod formula); a gap of 1000
or more adds nothing (second conjunct); a wrap from 65535 to 0 adds nothing
(third conjunct, `seq = expected` there so the loss check is skipped). -/
theorem c7_loss_heuristic (frameDuration now : Nat) (devices : Registry)
    (deviceId : String) (info : DeviceInfo) (d : Device)
    (hm : mapGet devices deviceId = some d)
    (hseq : 0 ≤ d.lastSequence)
    (hlt : info.sequence < 65536) :
    (((info.sequence : Int) ≠ (d.lastSequence + 1) % 65536 →
      (((updateDevice frameDuration now devices deviceId info).2.packetsLost :
          Int) =
        (d.packetsLost : Int) +
          (if ((info.sequence : Int) - (d.lastSequence + 1) % 65536) % 65536
              < 1000
           then ((info.sequence : Int) - (d.lastSequence + 1) % 65536) % 65536
           else 0))) ∧
     (1000 ≤ ((info.sequence : Int) - (d.lastSequence + 1) % 65536) % 65536 →
      (updateDevice frameDuration now devices deviceId info).2.packetsLost =
        d.packetsLost) ∧
     (d.lastSequence = 65535 → info.sequence = 0 →
      (updateDevice frameDuration now devices deviceId info).2.packetsLost =
        d.packetsLost)) := by
  obtain ⟨m, hL⟩ : ∃ m : ℕ, d.lastSequence = (m : Int) :=
    ⟨d.lastSequence.toNat, (Int.toNat_of_nonneg hseq).symm⟩
  simp only [updateDevice, hm]
  rw [if_pos hseq]
  refine ⟨?_, ?_, ?_⟩
  · intro hne
    split_ifs with h1 h2 h3 <;> push_cast <;> omega
  · intro hge
    split_ifs with h1 h2 <;> push_cast at * <;> omega
  · intro h65 h0
    rw [if_neg]
    simp only [h65] at hL ⊢
    simp [h0, hL, Int.toNat_ofNat]
    omega

def c7Dev : Device := { mkDevice "G" with lastSequence := 2, packetsLost := 7 }

def c7Reg : Registry := [("G", c7Dev)]

def c7Info : DeviceInfo := { address := "10.0.0.1", port := 5005, sequence := 5 }

/-- C7 witness: lastSequence 2, incoming seq 5 → expected 3, lost 2 < 1000,
`packetsLost` goes from 7 to 9. -/
theorem c7_loss_heuristic_witness :
    (updateDevice 20 5 c7Reg "G" c7Info).2.packetsLost = 9 := by
  have h := (c7_loss_heuristic 20 5 c7Reg "G" c7Info c7Dev (by decide)
    (by decide) (by decide)).1 (by decide)
  norm_num [c7Dev, c7Info] at h
  exact_mod_cast h

/-! ## Claim C8 -/

/-- Looking up the key just written returns the written value. -/
theorem mapGet_mapSet_self {β : Type} (m : List (String × β)) (k : String)
    (v : β) : mapGet (mapSet m k v) k = some v := by
  induction m with
  | nil => simp [mapGet, mapSet]
  | cons e rest ih =>
      obtain ⟨k', v'⟩ := e
      by_cases h : k' = k
      · simp [mapGet, mapSet, h]
      · simp [mapGet, mapSet, h, ih]

/-- The drop-while-full loop leaves at most `MAX_BUFFER_SIZE` packets when
given enough fuel. -/
theorem dropWhileFull_length :
    ∀ (fuel : Nat) (ps : List PacedPacket) (dropped : Nat),
      ps.length ≤ MAX_BUFFER_SIZE + fuel →
      (dropWhileFull fuel ps dropped).1.length ≤ MAX_BUFFER_SIZE := by
  intro fuel
  induction fuel with
  | zero =>
      intro ps dropped h
      rw [dropWhileFull]
      simpa using h
  | succ n ih =>
      intro ps dropped h
      rw [dropWhileFull]
      split
      · apply ih
        simp only [List.length_tail]
        omega
      · next hle => simpa using Nat.le_of_not_lt hle

/-- Stable insertion grows the list by one. -/
theorem insertBySeq_length (x : PacedPacket) :
    ∀ l : List PacedPacket, (insertBySeq x l).length = l.length + 1 := by
  intro l
  induction l with
  | nil => rfl
  | cons y ys ih =>
      rw [insertBySeq]
      split <;> simp [ih]

/-- Sorting preserves the queue length. -/
theorem sortBySeq_length (l : List PacedPacket) :
    (sortBySeq l).length = l.length := by
  suffices h : ∀ (l acc : List PacedPacket),
      (l.foldl (fun acc x => insertBySeq x acc) acc).length =
        acc.length + l.length by
    simpa [sortBySeq] using h l []
  intro l
  induction l with
  | nil => intro acc; simp
  | cons y ys ih =>
      intro acc
      simp [List.foldl_cons, ih, insertBySeq_length]
      omega

/-- The packet enqueued in the burst scenario: a DSH audio header carrying
sequence number `s`. -/
def c8Packet (s : Nat) : List Nat :=
  [68, 83, 72, 0, s / 256, s % 256, 0, 1, 9, 9]

/-- The pacer after a burst of 15 enqueues (sequences 0..14) on the single
flow `DSH → 001`. -/
def c8Burst : Pacer :=
  (List.range 15).foldl
    (fun st s =>
      bufferPacket st (c8Packet s) (some (mkDevice "DSH"))
        (some (mkDevice "001")) s)
    initPacer

/-- C8: after any enqueue the targeted flow holds at most
`MAX_BUFFER_SIZE = 10` packets (first conjunct, for every state and input);
and in the concrete burst of 15 enqueues the 5 oldest packets (sequences
0..4) are evicted head-first, leaving sequences 5..14 and adding 5 to
`packetsDropped` (with all 15 counted in `packetsReceived`). -/
theorem c8_buffer_cap_and_burst :
    (∀ (st : Pacer) (packet : List Nat) (f t : Device) (now : Nat),
      queueLenAt (bufferPacket st packet (some f) (some t) now)
        (f.id ++ "->" ++ t.id) ≤ MAX_BUFFER_SIZE) ∧
    ((mapGet c8Burst.queues "DSH->001").map
        (fun q => q.packets.map PacedPacket.sequence) =
          some [5, 6, 7, 8, 9, 10, 11, 12, 13, 14] ∧
      c8Burst.stats.packetsDropped = 5 ∧
      c8Burst.stats.packetsReceived = 15) := by
  refine ⟨?_, by decide, by decide, by decide⟩
  intro st packet f t now
  unfold bufferPacket
  dsimp only
  simp only [queueLenAt, mapGet_mapSet_self, Option.map_some', Option.getD_some]
  rw [sortBySeq_length]
  apply dropWhileFull_length
  omega

/-! ## Claim C9 -/

/-- Re-adding duplicate-free elements to a `Set` that misses all of them
appends them in order. -/
theorem foldl_jsSetAdd_append :
    ∀ (l acc : List String), l.Nodup → (∀ x ∈ l, x ∉ acc) →
      l.foldl jsSetAdd acc = acc ++ l := by
  intro l
  induction l with
  | nil => intro acc _ _; simp
  | cons y ys ih =>
      intro acc hnd hdisj
      simp only [List.foldl_cons]
      rw [jsSetAdd, if_neg (hdisj y (by simp))]
      rw [ih (acc ++ [y]) hnd.of_cons]
      · simp
      · intro x hx
        rw [List.nodup_cons] at hnd
        simp only [List.mem_append, List.mem_singleton]
        rintro (hxa | hxy)
        · exact hdisj x (by simp [hx]) hxa
        · exact hnd.1 (hxy ▸ hx)

/-- Rebuilding a duplicate-free `Set` from its exported array restores it. -/
theorem jsSetOfList_eq_self (l : List String) (h : l.Nodup) :
    jsSetOfList l = l := by
  simpa [jsSetOfList] using foldl_jsSetAdd_append l [] h (by simp)

/-- Setting a fresh key appends the entry. -/
theorem mapSet_eq_append {β : Type} :
    ∀ (m : List (String × β)) (k : String) (v : β), k ∉ mapKeys m →
      mapSet m k v = m ++ [(k, v)] := by
  intro m
  induction m with
  | nil => intro k v _; rfl
  | cons e rest ih =>
      intro k v hk
      obtain ⟨k', v'⟩ := e
      simp only [mapKeys, List.map_cons, List.mem_cons, not_or] at hk
      have h1 : k' ≠ k := fun h => hk.1 h.symm
      have h2 : k ∉ mapKeys rest := hk.2
      simp only [mapSet, if_neg h1]
      rw [ih k v h2]
      simp

/-- Replaying `Map.set` over the exported entries of a unique-keyed map,
starting from a map missing all those keys, appends them in order
(`g` is the per-entry value transformation applied on import, required to be
the identity on the replayed entries). -/
theorem foldl_mapSet_rebuild {β : Type} (g : String × β → β) :
    ∀ (L m : List (String × β)),
      (mapKeys L).Nodup → (∀ k ∈ mapKeys L, k ∉ mapKeys m) →
      (∀ e ∈ L, g e = e.2) →
      L.foldl (fun m' e => mapSet m' e.1 (g e)) m = m ++ L := by
  intro L
  induction L with
  | nil => intro m _ _ _; simp
  | cons e rest ih =>
      intro m hnd hdisj hg
      obtain ⟨k, v⟩ := e
      simp only [mapKeys, List.map_cons, List.nodup_cons] at hnd
      have hkfresh : k ∉ mapKeys m := hdisj k (by simp [mapKeys])
      have hdisj2 : ∀ k2 ∈ mapKeys rest, k2 ∉ mapKeys (m ++ [(k, v)]) := by
        intro k2 hk2
        have hk2' : k2 ∈ List.map Prod.fst rest := by simpa [mapKeys] using hk2
        simp only [mapKeys, List.map_append, List.map_cons, List.map_nil,
          List.mem_append, List.mem_singleton, not_or]
        refine ⟨hdisj k2 (by simp [mapKeys, hk2']), ?_⟩
        intro hkk
        exact hnd.1 (hkk ▸ hk2')
      simp only [List.foldl_cons]
      rw [hg (k, v) (by simp)]
      rw [mapSet_eq_append m k v hkfresh]
      rw [ih (m ++ [(k, v)]) (by simpa [mapKeys] using hnd.2) hdisj2
        (fun e2 he2 => hg e2 (by simp [he2]))]
      simp

/-- The import's routes loop touches only the `routes` component. -/
theorem foldl_setMultipleRoutes (L : List (String × List String)) :
    ∀ st : RouterState,
      L.foldl (fun st' route => setMultipleRoutes st' route.1 route.2) st =
        { st with routes :=
            L.foldl (fun m e => mapSet m e.1 (jsSetOfList e.2)) st.routes } := by
  induction L with
  | nil => intro st; rfl
  | cons e rest ih =>
      intro st
      simp only [List.foldl_cons]
      rw [ih]
      rfl

/-- C9: exporting the configuration and importing the export restores the
router state exactly — same routes map, broadcast flags and muted set (the
hypotheses say the exported state is a well-formed JS `Map`/`Set` snapshot:
unique keys, duplicate-free sets). -/
theorem c9_export_import_round_trip (st : RouterState)
    (h1 : (mapKeys st.routes).Nodup)
    (h2 : ∀ e ∈ st.routes, (e : String × List String).2.Nodup)
    (h3 : (mapKeys st.broadcastMode).Nodup)
    (h4 : st.mutedDevices.Nodup) :
    importConfiguration st (exportConfiguration st) = st := by
  unfold importConfiguration exportConfiguration
  dsimp only
  rw [foldl_setMultipleRoutes]
  dsimp only
  rw [foldl_mapSet_rebuild (fun e => jsSetOfList e.2) st.routes [] h1
    (by simp [mapKeys]) (fun e he => jsSetOfList_eq_self _ (h2 e he))]
  rw [foldl_mapSet_rebuild (fun e => e.2) st.broadcastMode [] h3
    (by simp [mapKeys]) (fun e _ => rfl)]
  rw [foldl_jsSetAdd_append st.mutedDevices [] h4 (by simp)]
  simp only [List.nil_append]
  split <;> rfl

/-- A concrete well-formed router configuration exercising all three
collections. -/
def c9State : RouterState :=
  { devices := [("001", mkDevice "001")],
    deviceGroups := [],
    routes := [("001", ["002", "001"]), ("002", ["001"])],
    broadcastMode := [("001", true), ("003", false)],
    mutedDevices := ["004"],
    routingMode := "unicast" }

/-- C9 witness: the round trip is the identity on `c9State`. -/
theorem c9_export_import_round_trip_witness :
    importConfiguration c9State (exportConfiguration c9State) = c9State :=
  c9_export_import_round_trip c9State (by decide) (by decide) (by decide)
    (by decide)

/-! ## Claim C10 -/

/-- Routing audio never touches the ingress counters `packetsReceived` and
`bytesReceived`. -/
theorem routeAudio_preserves_ingress (ok : String → Bool)
    (router : RouterState) (packet : List Nat) :
    ∀ (l : List String) (stats : ServerStats),
      (l.foldl (routeAudioStep ok router packet) stats).packetsReceived =
          stats.packetsReceived ∧
        (l.foldl (routeAudioStep ok router packet) stats).bytesReceived =
          stats.bytesReceived := by
  intro l
  induction l with
  | nil => intro stats; exact ⟨rfl, rfl⟩
  | cons hd tl ih =>
      intro stats
      have hstep :
          (routeAudioStep ok router packet stats hd).packetsReceived =
              stats.packetsReceived ∧
            (routeAudioStep ok router packet stats hd).bytesReceived =
              stats.bytesReceived := by
        unfold routeAudioStep sendToDevice
        cases mapGet router.devices hd with
        | none => exact ⟨rfl, rfl⟩
        | some td => cases td.online <;> simp <;> split_ifs <;> simp
      simp only [List.foldl_cons]
      exact ⟨(ih _).1.trans hstep.1, (ih _).2.trans hstep.2⟩

/-- C10: every incoming datagram — malformed ones included — increments
`packetsReceived` by exactly 1 and adds its length to `bytesReceived`
before any validation; a datagram shorter than 8 bytes additionally
increments `packetsDropped` and leaves the registry, the router and the
egress counters untouched (no endpoint is created or updated). -/
theorem c10_counters_before_validation (frameDuration now : Nat)
    (parseCtl : List Nat → Option ControlMsg) (ok : String → Bool)
    (st : ServerState) (packet : List Nat) (raddr : String) (rport : Nat) :
    (handlePacket frameDuration now parseCtl ok st packet raddr
        rport).stats.packetsReceived = st.stats.packetsReceived + 1 ∧
    (handlePacket frameDuration now parseCtl ok st packet raddr
        rport).stats.bytesReceived = st.stats.bytesReceived + packet.length ∧
    (packet.length < 8 →
      (handlePacket frameDuration now parseCtl ok st packet raddr
          rport).stats.packetsDropped = st.stats.packetsDropped + 1 ∧
      (handlePacket frameDuration now parseCtl ok st packet raddr
          rport).router = st.router ∧
      (handlePacket frameDuration now parseCtl ok st packet raddr
          rport).stats.packetsRouted = st.stats.packetsRouted ∧
      (handlePacket frameDuration now parseCtl ok st packet raddr
          rport).stats.bytesTransmitted = st.stats.bytesTransmitted) := by
  unfold handlePacket
  by_cases h8 : packet.length < 8
  · rw [if_pos h8]
    exact ⟨rfl, rfl, fun _ => ⟨rfl, rfl, rfl, rfl⟩⟩
  · rw [if_neg h8]
    refine ⟨?_, ?_, fun h => absurd h h8⟩ <;>
    · dsimp only
      split_ifs <;> dsimp only <;>
        first
          | exact (by unfold routeAudio
                      exact (routeAudio_preserves_ingress _ _ _ _ _).1)
          | exact (by unfold routeAudio
                      exact (routeAudio_preserves_ingress _ _ _ _ _).2)
          | rfl
          | (unfold sendToDevice; split_ifs <;> rfl)

def c10State : ServerState := { router := c4State, stats := c4Stats }

/-- C10 witness: a 3-byte datagram is counted in `packetsReceived` and
`bytesReceived`, dropped, and leaves the router (registry included)
untouched. -/
theorem c10_counters_before_validation_witness :
    (handlePacket 20 0 (fun _ => none) (fun _ => true) c10State [1, 2, 3]
        "10.0.0.9" 9).stats.packetsReceived
      = c10State.stats.packetsReceived + 1 ∧
    (handlePacket 20 0 (fun _ => none) (fun _ => true) c10State [1, 2, 3]
        "10.0.0.9" 9).stats.bytesReceived
      = c10State.stats.bytesReceived + 3 ∧
    (handlePacket 20 0 (fun _ => none) (fun _ => true) c10State [1, 2, 3]
        "10.0.0.9" 9).stats.packetsDropped
      = c10State.stats.packetsDropped + 1 ∧
    (handlePacket 20 0 (fun _ => none) (fun _ => true) c10State [1, 2, 3]
        "10.0.0.9" 9).router = c10State.router :=
  have h := c10_counters_before_validation 20 0 (fun _ => none)
    (fun _ => true) c10State [1, 2, 3] "10.0.0.9" 9
  ⟨h.1, h.2.1, (h.2.2 (by decide)).1, (h.2.2 (by decide)).2.1⟩

end EspUdp
